import Mathlib

/-!
Verification development for the Talk CLI setup wizard (`bin/cli_setup`,
given as `src/unnamed/part_000`).

The script defines an async function `performSetup` and then runs
`performSetup().then(() => util.shutdown()).catch(e => { console.error(e); util.shutdown(1); })`.

We shallowly embed the script as pure Lean functions.  Effects (store
probes, record creation, prompting, migration runs, console output) are
recorded as an explicit event trace; exceptions become `Except` errors.

Source layout of `performSetup` (line numbers refer to `src/unnamed/part_000`):
 - lines 38-53: the installation guard, a try/catch around
   `SettingsService.retrieve()`; on success it throws `ErrSettingsInit`,
   and the catch either `return`s (when the error is `ErrSettingsNotInit`)
   or rethrows.  Note the `return;` at line 49 returns from `performSetup`
   itself, so the remainder of the function body (lines 55-206) is
   unreachable in the shipped file.
 - lines 55-68: the `--defaults` branch (settings init, list pending
   migrations, run them, success logs).
 - lines 70-206: the interactive branch (prompts, whitelist handling,
   admin-user prompts with validation filters, `SetupService.setup`,
   success logs).

We embed the guard/driver faithfully (including the early return), and we
embed the body at lines 55-206 as its own definitions so that properties of
the collection, validation and persistence logic can be stated about the
code that implements them.
-/

namespace TalkSetup

/-- The in-memory settings draft (`new SettingModel()` at line 71).  Only the
fields the script touches are modelled: organization name, moderation mode,
require-email-confirmation (lines 77-111) and the domain whitelist
(line 136, `settings.domains.whitelist`).  The model's engine defaults are
not under `src/` (`../models/setting`), so every definition below is
parameterised by the default record instead of fixing one. -/
structure SettingModel where
  organizationName : String
  moderation : String
  requireEmailConfirmation : Bool
  whitelist : List String
deriving DecidableEq, Repr

/-- The user payload handed to `SetupService.setup` (lines 193-197): exactly
an email, a username and a password. -/
structure UserPayload where
  email : String
  username : String
  password : String
deriving DecidableEq, Repr

/-- Errors of the run.  `settingsInit` is `ErrSettingsInit` (already
installed), `settingsNotInit` is `ErrSettingsNotInit` (store holds no
record), `storeFailure` is any other retrieve failure, and
`validationFailure` is a rejected prompt filter (the rejection reason
string propagates out of `inquirer.prompt`). -/
inductive Err
  | settingsInit
  | settingsNotInit
  | storeFailure (msg : String)
  | validationFailure (msg : String)
deriving DecidableEq, Repr

/-- Observable events of a run, in order of occurrence. -/
inductive Ev
  | retrieve
  | settingsInit
  | listPending (pending : List String)
  | runMigrations (pending : List String)
  | persist (settings : SettingModel) (user : UserPayload)
  | prompt (name : String)
  | log (line : String)
deriving DecidableEq, Repr

/-- State of the settings store, as seen through `SettingsService.retrieve`:
it either holds the single global settings record, holds none (the
distinguished "not initialized" condition), or fails for another reason. -/
inductive StoreState
  | initialized (record : SettingModel)
  | uninitialized
  | broken (msg : String)
deriving DecidableEq, Repr

/-- Line 40, `SettingsService.retrieve()`: succeeds with the stored record,
fails with `ErrSettingsNotInit` when the store is uninitialized, and fails
with some other error otherwise. -/
def SettingsService.retrieve (store : StoreState) : Except Err SettingModel :=
  match store with
  | .initialized record => .ok record
  | .uninitialized => .error .settingsNotInit
  | .broken msg => .error (.storeFailure msg)

/-- Lines 36-206, `performSetup`, embedded faithfully.

Lines 38-53 are a try/catch around `retrieve`:
 - retrieve succeeds: line 44 throws `ErrSettingsInit`; the catch at 45
   tests `err instanceof ErrSettingsNotInit`, which fails, and line 52
   rethrows, so `performSetup` rejects with `ErrSettingsInit`;
 - retrieve throws `ErrSettingsNotInit`: line 49 executes `return;`, which
   returns from `performSetup` itself — not merely from the catch — so the
   function resolves here and lines 55-206 never execute;
 - retrieve throws anything else: line 52 rethrows it.

Every arm of the try/catch therefore either resolves or rejects the
function, which is why this definition ignores the `--defaults` flag
(read only at line 55) and produces no event beyond the retrieve probe.
The code of lines 55-206 is embedded separately below as
`defaultsBranch` / `interactiveBranch`; `performSetup` never calls it. -/
def performSetup (store : StoreState) (_defaults : Bool) : Except Err Unit × List Ev :=
  match SettingsService.retrieve store with
  | .ok _ => (.error .settingsInit, [.retrieve])
  | .error .settingsNotInit => (.ok (), [.retrieve])
  | .error e => (.error e, [.retrieve])

/-- Outcome of the whole process: exit code, what was printed to the error
stream, and the event trace. -/
structure ProcessResult where
  exitCode : Nat
  errorOutput : Option Err
  events : List Ev
deriving DecidableEq, Repr

/-- The driver at lines 209-216:
`performSetup().then(() => util.shutdown()).catch(e => { console.error(e); util.shutdown(1); })`.

`util.shutdown` lives in `./util`, which is not under `src/`.  Modelled
from the spec: the process "exits 0 on Done, non-zero with the error
printed to the error stream on Failed", so `shutdown()` exits with code 0
and `shutdown(1)` with code 1, after `console.error(e)` has printed the
rejection reason. -/
def runProcess (store : StoreState) (defaults : Bool) : ProcessResult :=
  match performSetup store defaults with
  | (.ok _, evs) => ⟨0, none, evs⟩
  | (.error e, evs) => ⟨1, some e, evs⟩

/-- Events that write to the system: settings creation, the atomic
settings+account persist, and migration runs. -/
def Ev.isWrite : Ev → Bool
  | .settingsInit => true
  | .persist _ _ => true
  | .runMigrations _ => true
  | _ => false

/-- The `--defaults` branch, lines 55-68: `SettingsService.init()`, then
`MigrationService.listPending()`, then `MigrationService.run(migrations)`
on exactly the pending list, then the two success logs.  `pending` is the
list the Migration Registry reports as pending. -/
def defaultsBranch (pending : List String) : Except Err Unit × List Ev :=
  (.ok (),
    [.settingsInit, .listPending pending, .runMigrations pending,
     .log "Settings created.", .log "\nTalk is now installed!"])

/-- Answers to the first interactive prompt set (lines 77-104).  Each field
is optional because the update loop at lines 107-111 copies an answer onto
the settings draft only when it is not `undefined`. -/
structure FirstAnswers where
  organizationName : Option String
  moderation : Option String
  requireEmailConfirmation : Option Bool
deriving DecidableEq, Repr

/-- Lines 107-111: `Object.keys(answers).forEach(key => { if (answers[key]
!== undefined) settings[key] = answers[key]; })` — each defined answer
overwrites the corresponding settings field; the whitelist is untouched. -/
def applyAnswers (s : SettingModel) (a : FirstAnswers) : SettingModel :=
  { s with
    organizationName := a.organizationName.getD s.organizationName
    moderation := a.moderation.getD s.moderation
    requireEmailConfirmation :=
      a.requireEmailConfirmation.getD s.requireEmailConfirmation }

/-- Answers to the whitelist prompt set (lines 113-133).
`whitelistedDomain` is only captured when the gate question is affirmed
(the `when` clause at line 124); when the gate is answered `false` the
field is never read by the script (line 135 guards the only read). -/
structure WhitelistAnswers where
  inputWhitelistedDomains : Bool
  whitelistedDomain : String
deriving DecidableEq, Repr

/-- Which questions of the whitelist prompt set are asked: the gate is
always asked; the domain question carries `when: ({ inputWhitelistedDomains })
=> inputWhitelistedDomains` (line 124), so it is asked only when the gate
was affirmed. -/
def promptWhitelist (a : WhitelistAnswers) : List Ev :=
  if a.inputWhitelistedDomains then
    [.prompt "inputWhitelistedDomains", .prompt "whitelistedDomain"]
  else
    [.prompt "inputWhitelistedDomains"]

/-- Lines 135-137: `if (answers.inputWhitelistedDomains)
settings.domains.whitelist = [answers.whitelistedDomain];` — an assignment
of a fresh single-element array, not an append. -/
def applyWhitelist (s : SettingModel) (a : WhitelistAnswers) : SettingModel :=
  if a.inputWhitelistedDomains then { s with whitelist := [a.whitelistedDomain] } else s

/-- The settings draft as it stands when the interactive branch reaches the
`SetupService.setup` call: the fresh model, updated by the first answer set
(lines 107-111), then by the whitelist block (lines 135-137). -/
def collectedSettings (defaultSettings : SettingModel) (fa : FirstAnswers)
    (wa : WhitelistAnswers) : SettingModel :=
  applyWhitelist (applyAnswers defaultSettings fa) wa

/-- Answers captured by the admin-user prompt set (lines 141-188), before
the validation filters are applied to them. -/
structure UserAnswers where
  username : String
  email : String
  password : String
  confirmPassword : String
deriving DecidableEq, Repr

/-- The username filter (lines 146-150):
`UsersService.isValidUsername(username, false).catch(err => { throw
err.message })`.  `UsersService` is not under `src/`; the rule is
parameterised as `uCheck`, which returns `none` when the username is
acceptable and `some msg` (the thrown `err.message`) otherwise; on success
the filter resolves with the username. -/
def usernameFilter (uCheck : String → Option String) (username : String) :
    Except String String :=
  match uCheck username with
  | none => .ok username
  | some msg => .error msg

/-- The password filter (lines 168-172):
`UsersService.isValidPassword(password).catch(err => { throw err.message })`.
The strength policy is parameterised as `policy` (`none` = valid,
`some msg` = the thrown message).  The second component records each value
the strength validator was invoked on. -/
def passwordFilter (policy : String → Option String) (password : String) :
    Except String String × List String :=
  match policy password with
  | none => (.ok password, [password])
  | some msg => (.error msg, [password])

/-- The confirm-password filter (lines 178-186): first
`if (password !== confirmPassword) return Promise.reject(new Error('Passwords
do not match'));`, and only past that guard
`UsersService.isValidPassword(confirmPassword).catch(err => { throw
err.message })`.  As in `passwordFilter`, the second component records each
value the strength validator was invoked on. -/
def confirmPasswordFilter (policy : String → Option String)
    (password confirmPassword : String) : Except String String × List String :=
  if password ≠ confirmPassword then
    (.error "Passwords do not match", [])
  else
    match policy confirmPassword with
    | none => (.ok confirmPassword, [confirmPassword])
    | some msg => (.error msg, [confirmPassword])

/-- The admin-user prompt set (lines 141-188), run sequentially: username
(filtered by `usernameFilter`), email (its `validate` re-prompts until the
captured value is acceptable, so the captured answer needs no further
model), password (filtered by `passwordFilter`), confirm-password
(filtered by `confirmPasswordFilter`, which receives the already-accepted
password from the answers hash).  A rejected filter rejects the whole
prompt promise with the reason.  The second component accumulates the
values the strength validator was invoked on. -/
def promptUser (uCheck : String → Option String) (policy : String → Option String)
    (ua : UserAnswers) : Except String UserAnswers × List String :=
  match usernameFilter uCheck ua.username with
  | .error msg => (.error msg, [])
  | .ok _ =>
    match passwordFilter policy ua.password with
    | (.error msg, calls) => (.error msg, calls)
    | (.ok _, calls) =>
      match confirmPasswordFilter policy ua.password ua.confirmPassword with
      | (.error msg, calls') => (.error msg, calls ++ calls')
      | (.ok _, calls') => (.ok ua, calls ++ calls')

/-- Lines 193-197: the user object handed to `SetupService.setup` holds
exactly the collected email, username and password. -/
def setupUserPayload (ua : UserAnswers) : UserPayload :=
  { email := ua.email, username := ua.username, password := ua.password }

/-- Modelled from the spec: `SetupService.setup` (`../services/setup`,
line 191) is code of this repository that is not under `src/`.  Per the
spec, `Collected -> Persisted` creates the Settings record and the
Administrator account as a single atomic unit, and `Persisted -> Migrated`
fetches the pending migrations from the Migration Registry and runs them
after every successful persist — in Interactive mode just as in Defaults
mode (in Defaults mode the script at lines 58-62 performs the migration
step itself, since it bypasses this service). -/
def SetupService.setup (settings : SettingModel) (user : UserPayload)
    (pending : List String) : List Ev :=
  [.persist settings user, .listPending pending, .runMigrations pending]

/-- The interactive branch, lines 70-206: intro log, the first prompt set,
the whitelist prompt set, the admin-user intro log, the admin-user prompt
set, then `SetupService.setup` on the collected settings and user payload,
then the success logs.  Every filter of the admin-user prompt set resolves
with the value it was given, so the resolved `user` object of line 141
equals the captured answers `ua` and the payload of lines 193-197 is
`setupUserPayload ua`.  The two intro sentences of the source (lines 73-75
and 139) are abbreviated here; the success logs keep the source text,
except that line 201 interpolates the created user id and is rendered
without it. -/
def interactiveBranch (defaultSettings : SettingModel) (fa : FirstAnswers)
    (wa : WhitelistAnswers) (ua : UserAnswers) (uCheck : String → Option String)
    (policy : String → Option String) (pending : List String) :
    Except Err Unit × List Ev :=
  let settings := collectedSettings defaultSettings fa wa
  let basePrompts : List Ev :=
    [.log "setup questions intro", .prompt "organizationName", .prompt "moderation",
     .prompt "requireEmailConfirmation"] ++ promptWhitelist wa
      ++ [.log "admin user questions intro"]
  match promptUser uCheck policy ua with
  | (.error msg, _) => (.error (.validationFailure msg), basePrompts)
  | (.ok _, _) =>
    (.ok (),
      basePrompts
        ++ [.prompt "username", .prompt "email", .prompt "password",
            .prompt "confirmPassword"]
        ++ SetupService.setup settings (setupUserPayload ua) pending
        ++ [.log "Settings created.", .log "User created.",
            .log "\nTalk is now installed!",
            .log "\nWe recommend adding TALK_INSTALL_LOCK=TRUE to your environment to turn off the dynamic setup."])

/-- Lines 55-206 as a whole: the code of `performSetup` past the guard,
selected by the `--defaults` flag (line 55).  In the shipped file this code
is unreachable (see `performSetup`); it is embedded so that the collection
and persistence logic can be reasoned about. -/
def performSetupBody (defaults : Bool) (defaultSettings : SettingModel)
    (fa : FirstAnswers) (wa : WhitelistAnswers) (ua : UserAnswers)
    (uCheck : String → Option String) (policy : String → Option String)
    (pending : List String) : Except Err Unit × List Ev :=
  if defaults then defaultsBranch pending
  else interactiveBranch defaultSettings fa wa ua uCheck policy pending

/-- Events that persist the settings/account unit. -/
def Ev.isPersist : Ev → Bool
  | .persist _ _ => true
  | _ => false

/-- Sample engine defaults for concrete evaluations. -/
def sampleDefaults : SettingModel :=
  { organizationName := "", moderation := "PRE", requireEmailConfirmation := false,
    whitelist := [] }

/-- Sample first answer set for concrete evaluations. -/
def sampleFirstAnswers : FirstAnswers :=
  { organizationName := some "Acme", moderation := some "PRE",
    requireEmailConfirmation := some true }

/-- Sample admin-user answers for concrete evaluations. -/
def sampleUser : UserAnswers :=
  { username := "admin", email := "a@b.com", password := "Str0ngPass!",
    confirmPassword := "Str0ngPass!" }

/-- Validation oracle that accepts every value. -/
def acceptAll : String → Option String := fun _ => none

/-- Trace characterization of a successful interactive run: the events are
the prompts, the `SetupService.setup` block on the collected settings and
payload, and the success logs. -/
theorem interactiveBranch_ok_trace (ds : SettingModel) (fa : FirstAnswers)
    (wa : WhitelistAnswers) (ua : UserAnswers) (uCheck : String → Option String)
    (policy : String → Option String) (pending : List String) (evs : List Ev)
    (h : interactiveBranch ds fa wa ua uCheck policy pending = (.ok (), evs)) :
    evs =
      ([Ev.log "setup questions intro", .prompt "organizationName", .prompt "moderation",
        .prompt "requireEmailConfirmation"] ++ promptWhitelist wa
        ++ [.log "admin user questions intro"])
      ++ [.prompt "username", .prompt "email", .prompt "password", .prompt "confirmPassword"]
      ++ SetupService.setup (collectedSettings ds fa wa) (setupUserPayload ua) pending
      ++ [.log "Settings created.", .log "User created.", .log "\nTalk is now installed!",
          .log "\nWe recommend adding TALK_INSTALL_LOCK=TRUE to your environment to turn off the dynamic setup."] := by
  unfold interactiveBranch at h
  rcases hp : promptUser uCheck policy ua with ⟨res, calls⟩
  rw [hp] at h
  cases res with
  | error msg => simp at h
  | ok a => simpa using h.symm

end TalkSetup

namespace TalkSetup

/-- C2: when the Settings Store already holds a record, `retrieve` succeeds,
`performSetup` rejects with `ErrSettingsInit` (AlreadyInstalled), the
process prints that error and exits non-zero, and the trace holds no write
at all — no settings create, no account create, no migration run. -/
theorem alreadyInstalled_halts_without_writes (record : SettingModel) (defaults : Bool) :
    runProcess (.initialized record) defaults =
      { exitCode := 1, errorOutput := some .settingsInit, events := [.retrieve] } ∧
    (runProcess (.initialized record) defaults).events.filter Ev.isWrite = [] :=
  ⟨rfl, rfl⟩

/-- C9: when the store is uninitialized, `retrieve` fails with
`ErrSettingsNotInit`, the `return` at line 49 resolves `performSetup`
immediately after the guard, and the process exits 0 with no side effect:
no settings init, no prompt, no persist, no migration listing or run —
in either mode. -/
theorem notInit_run_exits_clean_after_guard (defaults : Bool) :
    performSetup .uninitialized defaults = (.ok (), [.retrieve]) ∧
    runProcess .uninitialized defaults =
      { exitCode := 0, errorOutput := none, events := [.retrieve] } ∧
    Ev.settingsInit ∉ (runProcess .uninitialized defaults).events ∧
    (∀ name, Ev.prompt name ∉ (runProcess .uninitialized defaults).events) ∧
    (∀ s u, Ev.persist s u ∉ (runProcess .uninitialized defaults).events) ∧
    (∀ ms, Ev.listPending ms ∉ (runProcess .uninitialized defaults).events) ∧
    (∀ ms, Ev.runMigrations ms ∉ (runProcess .uninitialized defaults).events) := by
  refine ⟨rfl, rfl, ?_, ?_, ?_, ?_, ?_⟩ <;>
    simp [runProcess, performSetup, SettingsService.retrieve]

/-- C1 counterexample record: against an uninitialized store the guard does
return `proceed` (the run does not fail), yet the run ends right there in
both modes: the trace holds only the retrieve probe — no configuration is
collected, nothing is persisted.  The claimed continuation through
`Collected -> Persisted` never happens because the `return` at line 49
leaves `performSetup` itself. -/
theorem guard_proceed_still_ends_run :
    runProcess .uninitialized false =
      { exitCode := 0, errorOutput := none, events := [.retrieve] } ∧
    runProcess .uninitialized true =
      { exitCode := 0, errorOutput := none, events := [.retrieve] } :=
  ⟨rfl, rfl⟩

/-- C4 counterexample record: a `--defaults` run against an uninitialized
store exits 0 but creates zero Settings records and runs zero migrations,
because line 49 returns from `performSetup` before the defaults branch at
lines 55-68 can execute. -/
theorem defaults_run_creates_nothing :
    (runProcess .uninitialized true).exitCode = 0 ∧
    (runProcess .uninitialized true).events.count Ev.settingsInit = 0 ∧
    (∀ ms, Ev.runMigrations ms ∉ (runProcess .uninitialized true).events) := by
  refine ⟨rfl, rfl, ?_⟩
  simp [runProcess, performSetup, SettingsService.retrieve]

/-- C8 counterexample record: an interactive run against an uninitialized
store produces exit code 0 although the run never reaches `Done`: no
success report is logged and nothing was written, so "exit 0 only on
`Done`" fails on the shipped file.  (The failure half of the claim does
hold: every rejection is printed and exits 1, cf.
`alreadyInstalled_halts_without_writes` for the AlreadyInstalled case.) -/
theorem exit_zero_without_done :
    (runProcess .uninitialized false).exitCode = 0 ∧
    Ev.log "\nTalk is now installed!" ∉ (runProcess .uninitialized false).events ∧
    (runProcess .uninitialized false).events.filter Ev.isWrite = [] := by
  refine ⟨rfl, ?_, rfl⟩
  simp [runProcess, performSetup, SettingsService.retrieve]

/-- C3: after a successful persist, the pending migrations are fetched and
run, in every mode.  In `--defaults` mode the settings create is
immediately followed by the listPending/run pair (lines 56-62); in
interactive mode every successful run's trace contains the persist of the
collected settings and payload immediately followed by the same
listPending/run pair (`SetupService.setup`, modelled from the spec). -/
theorem migrations_follow_persist_in_every_mode (ds : SettingModel)
    (fa : FirstAnswers) (wa : WhitelistAnswers) (ua : UserAnswers)
    (uCheck : String → Option String) (policy : String → Option String)
    (pending : List String) :
    (∃ l r, (defaultsBranch pending).2 =
      l ++ [Ev.settingsInit, .listPending pending, .runMigrations pending] ++ r) ∧
    (∀ evs, interactiveBranch ds fa wa ua uCheck policy pending = (.ok (), evs) →
      ∃ l r, evs =
        l ++ [Ev.persist (collectedSettings ds fa wa) (setupUserPayload ua),
              .listPending pending, .runMigrations pending] ++ r) := by
  constructor
  · exact ⟨[], [.log "Settings created.", .log "\nTalk is now installed!"], rfl⟩
  · intro evs h
    rw [interactiveBranch_ok_trace ds fa wa ua uCheck policy pending evs h]
    refine ⟨([Ev.log "setup questions intro", .prompt "organizationName", .prompt "moderation",
        .prompt "requireEmailConfirmation"] ++ promptWhitelist wa
        ++ [.log "admin user questions intro"])
      ++ [.prompt "username", .prompt "email", .prompt "password", .prompt "confirmPassword"],
      [.log "Settings created.", .log "User created.", .log "\nTalk is now installed!",
       .log "\nWe recommend adding TALK_INSTALL_LOCK=TRUE to your environment to turn off the dynamic setup."],
      ?_⟩
    simp [SetupService.setup]

/-- C3 witness: a concrete pending list and a concrete successful
interactive run, at which both halves of
`migrations_follow_persist_in_every_mode` are discharged. -/
theorem migrations_follow_persist_witness :
    (∃ l r, (defaultsBranch ["m1"]).2 =
      l ++ [Ev.settingsInit, .listPending ["m1"], .runMigrations ["m1"]] ++ r) ∧
    (∃ l r,
      (interactiveBranch sampleDefaults sampleFirstAnswers
        { inputWhitelistedDomains := false, whitelistedDomain := "" }
        sampleUser acceptAll acceptAll ["m1"]).2 =
      l ++ [Ev.persist
              (collectedSettings sampleDefaults sampleFirstAnswers
                { inputWhitelistedDomains := false, whitelistedDomain := "" })
              (setupUserPayload sampleUser),
            .listPending ["m1"], .runMigrations ["m1"]] ++ r) := by
  have h := migrations_follow_persist_in_every_mode sampleDefaults sampleFirstAnswers
    { inputWhitelistedDomains := false, whitelistedDomain := "" }
    sampleUser acceptAll acceptAll ["m1"]
  exact ⟨h.1, h.2 _ rfl⟩

/-- C5: the confirm-password filter checks byte-for-byte equality with the
password strictly before strength validation: on a mismatch it fails with
the mismatch error and the strength validator is invoked on nothing; when
the two are equal, it behaves exactly as the password strength filter
applied to the confirm value — the same validation the password got. -/
theorem confirmPassword_mismatch_checked_first (policy : String → Option String)
    (password confirmPassword : String) :
    (password ≠ confirmPassword →
      confirmPasswordFilter policy password confirmPassword =
        (.error "Passwords do not match", [])) ∧
    (password = confirmPassword →
      confirmPasswordFilter policy password confirmPassword =
        passwordFilter policy confirmPassword) := by
  constructor
  · intro hne
    simp [confirmPasswordFilter, hne]
  · intro heq
    subst heq
    cases hp : policy password <;> simp [confirmPasswordFilter, passwordFilter, hp]

/-- C5 witness: at password "Abc12345" and confirm "different" the filter
fails with the mismatch error and zero strength-validator calls; at the
matching pair it equals the password strength filter. -/
theorem confirmPassword_mismatch_witness :
    ("Abc12345" ≠ "different" ∧
      confirmPasswordFilter acceptAll "Abc12345" "different" =
        (.error "Passwords do not match", [])) ∧
    ("Abc12345" = "Abc12345" ∧
      confirmPasswordFilter acceptAll "Abc12345" "Abc12345" =
        passwordFilter acceptAll "Abc12345") :=
  ⟨⟨by decide,
    (confirmPassword_mismatch_checked_first acceptAll "Abc12345" "different").1 (by decide)⟩,
   ⟨rfl,
    (confirmPassword_mismatch_checked_first acceptAll "Abc12345" "Abc12345").2 rfl⟩⟩

/-- C6: when the whitelist gate is affirmed and a domain captured, the
collected settings hold exactly the single-element whitelist with that
domain, whatever the prior whitelist of the draft was — an assignment, not
an append. -/
theorem whitelist_replaced_with_single_domain (ds : SettingModel)
    (fa : FirstAnswers) (d : String) :
    (collectedSettings ds fa
      { inputWhitelistedDomains := true, whitelistedDomain := d }).whitelist = [d] := by
  simp [collectedSettings, applyWhitelist]

/-- C7: when the whitelist gate is declined, the domain question is not
asked (only the gate prompt occurs) and the settings draft is exactly the
draft before the whitelist block, its whitelist still the default. -/
theorem declined_whitelist_not_asked_not_mutated (ds : SettingModel)
    (fa : FirstAnswers) (d : String) :
    promptWhitelist { inputWhitelistedDomains := false, whitelistedDomain := d } =
      [.prompt "inputWhitelistedDomains"] ∧
    collectedSettings ds fa { inputWhitelistedDomains := false, whitelistedDomain := d } =
      applyAnswers ds fa ∧
    (collectedSettings ds fa
      { inputWhitelistedDomains := false, whitelistedDomain := d }).whitelist =
      ds.whitelist := by
  refine ⟨rfl, ?_, ?_⟩ <;> simp [collectedSettings, applyWhitelist, applyAnswers]

/-- C10: every successful interactive run persists exactly once, and the
persisted user payload holds exactly the collected email, username and
password; the confirm-password value plays no part in the payload. -/
theorem persisted_payload_is_exactly_collected_triple (ds : SettingModel)
    (fa : FirstAnswers) (wa : WhitelistAnswers) (ua : UserAnswers)
    (uCheck : String → Option String) (policy : String → Option String)
    (pending : List String) (evs : List Ev)
    (h : interactiveBranch ds fa wa ua uCheck policy pending = (.ok (), evs)) :
    evs.filter Ev.isPersist =
      [Ev.persist (collectedSettings ds fa wa)
        { email := ua.email, username := ua.username, password := ua.password }] ∧
    (∀ c, setupUserPayload { ua with confirmPassword := c } = setupUserPayload ua) := by
  refine ⟨?_, fun c => rfl⟩
  rw [interactiveBranch_ok_trace ds fa wa ua uCheck policy pending evs h]
  cases hw : wa.inputWhitelistedDomains <;>
    simp [promptWhitelist, hw, SetupService.setup, Ev.isPersist, setupUserPayload]

/-- C10 witness: a concrete successful interactive run whose trace filters
to the single expected persist event, and a concrete changed
confirm-password value that leaves the payload untouched. -/
theorem persisted_payload_witness :
    ((interactiveBranch sampleDefaults sampleFirstAnswers
        { inputWhitelistedDomains := true, whitelistedDomain := "example.com" }
        sampleUser acceptAll acceptAll ["m1"]).2).filter Ev.isPersist =
      [Ev.persist
        (collectedSettings sampleDefaults sampleFirstAnswers
          { inputWhitelistedDomains := true, whitelistedDomain := "example.com" })
        { email := sampleUser.email, username := sampleUser.username,
          password := sampleUser.password }] ∧
    setupUserPayload { sampleUser with confirmPassword := "other" } =
      setupUserPayload sampleUser := by
  have h := persisted_payload_is_exactly_collected_triple sampleDefaults sampleFirstAnswers
    { inputWhitelistedDomains := true, whitelistedDomain := "example.com" }
    sampleUser acceptAll acceptAll ["m1"] _ rfl
  exact ⟨h.1, h.2 "other"⟩

end TalkSetup
